import Mathlib

/-!
Verification of the grss command-line argument parser
(src/rust/rust-cli/grss): the manual-indexing variant in
cli_datatypes.rs and the iterator-based variant in main.rs.

Both Rust variants read the process argument list through
std::env::args(). Each call to std::env::args() produces a FRESH
iterator over the same list, so .nth(k) on a fresh iterator is exactly
positional indexing: element k of the argument list (element 0 being
the invocation path of the program). We model the argument list as a
List String and each read as List.get? at the corresponding index.
A failed .expect(msg) is a panic carrying msg; we model the possible
panics as an error type and each variant as a function into Except.
-/

namespace Grss

/-- The distinct panic sites of the two variants. `missingProgramName`
is the panic on the program-name read in main.rs (line 9-11);
`missingPattern` and `missingPath` are the panics on the pattern and
path reads present in both variants. -/
inductive ParseError where
  | missingProgramName : ParseError
  | missingPattern : ParseError
  | missingPath : ParseError
deriving DecidableEq, Repr

/-- The struct Cli of cli_datatypes.rs: pattern String, path PathBuf.
PathBuf::from on a String keeps the bytes unchanged, so the path field
is modelled as the String it was built from. -/
structure Cli where
  pattern : String
  path : String
deriving DecidableEq, Repr

/-- cli_datatypes.rs line 9: std::env::args().nth(1), the pattern read. -/
def cliDatatypesPatternRead (args : List String) : Option String :=
  args.get? 1

/-- cli_datatypes.rs line 10: std::env::args().nth(2), the path read. -/
def cliDatatypesPathRead (args : List String) : Option String :=
  args.get? 2

/-- The body of main in cli_datatypes.rs: read nth(1) (panic
"no pattern given" when absent), read nth(2) (panic "no path given"
when absent), build Cli { pattern, path: PathBuf::from(path) }. -/
def cliDatatypesMain (args : List String) : Except ParseError Cli :=
  match cliDatatypesPatternRead args with
  | none => Except.error ParseError.missingPattern
  | some pattern =>
    match cliDatatypesPathRead args with
    | none => Except.error ParseError.missingPath
    | some path => Except.ok { pattern := pattern, path := path }

/-- main.rs lines 9-11: std::env::args().next(), the program-name read. -/
def mainRsProgramNameRead (args : List String) : Option String :=
  args.get? 0

/-- main.rs lines 20-22: std::env::args().nth(1) on a fresh iterator,
the pattern read. -/
def mainRsPatternRead (args : List String) : Option String :=
  args.get? 1

/-- main.rs lines 29-31: std::env::args().nth(2) on a fresh iterator,
the path read. -/
def mainRsPathRead (args : List String) : Option String :=
  args.get? 2

/-- The body of main in main.rs, in source order: the program-name
read panics first when the list is empty, then the pattern read, then
the path read; on success the three values obtained are returned. -/
def mainRsMain (args : List String) : Except ParseError (String × String × String) :=
  match mainRsProgramNameRead args with
  | none => Except.error ParseError.missingProgramName
  | some programName =>
    match mainRsPatternRead args with
    | none => Except.error ParseError.missingPattern
    | some pattern =>
      match mainRsPathRead args with
      | none => Except.error ParseError.missingPath
      | some path => Except.ok (programName, pattern, path)

/-- The .expect message attached to each panic site of
cli_datatypes.rs; the program-name read does not exist in that file,
so `missingProgramName` carries no message there. -/
def cliDatatypesExpectMsg : ParseError → Option String
  | ParseError.missingProgramName => none
  | ParseError.missingPattern => some "no pattern given"
  | ParseError.missingPath => some "no path given"

/-- The .expect messages of the pattern and path panic sites of
main.rs (the program-name site has its own third message, not needed
below). -/
def mainRsExpectMsg : ParseError → Option String
  | ParseError.missingProgramName => none
  | ParseError.missingPattern =>
      some "No pattern given, please give some pattern brother."
  | ParseError.missingPath =>
      some "No path given, please give some path brother, what to do?"

/-- The agreement relation between the two variants on one argument
list, stated from the words of claim C9: both succeed with the same
pattern and path values, or both fail with the same missing-field
condition. -/
def variantsAgreeOn (args : List String) : Prop :=
  (∃ pn p d c, mainRsMain args = Except.ok (pn, p, d) ∧
      cliDatatypesMain args = Except.ok c ∧ c.pattern = p ∧ c.path = d) ∨
  (∃ e, mainRsMain args = Except.error e ∧ cliDatatypesMain args = Except.error e)

/-- C1: for every argument list whose positional arguments 1 and 2 are
two non-empty strings P and D (argument 0 being the invocation path),
parsing succeeds and yields Cli with pattern P and path D byte-for-byte,
the iterator variant obtains the same two values, and when P and D
differ the resulting fields are unequal. -/
theorem c1_two_positionals_parsed_verbatim (a0 P D : String) (rest : List String)
    (hP : P ≠ "") (hD : D ≠ "") :
    cliDatatypesMain (a0 :: P :: D :: rest) = Except.ok ⟨P, D⟩ ∧
    mainRsMain (a0 :: P :: D :: rest) = Except.ok (a0, P, D) ∧
    (P ≠ D → (Cli.mk P D).pattern ≠ (Cli.mk P D).path) := by
  refine ⟨rfl, rfl, fun hne => ?_⟩
  simpa using hne

/-- C1 witness: the regression instance pattern foo, path bar.txt. -/
theorem c1_witness :
    cliDatatypesMain ["prog", "foo", "bar.txt"] = Except.ok ⟨"foo", "bar.txt"⟩ ∧
    mainRsMain ["prog", "foo", "bar.txt"] = Except.ok ("prog", "foo", "bar.txt") ∧
    (("foo" : String) ≠ "bar.txt" →
      (Cli.mk "foo" "bar.txt").pattern ≠ (Cli.mk "foo" "bar.txt").path) :=
  c1_two_positionals_parsed_verbatim "prog" "foo" "bar.txt" [] (by decide) (by decide)

/-- C2 counterexample: the code performs no emptiness check, so a Cli
is successfully constructed with an empty pattern field, refuting the
claim that construction fails when positional argument 1 is empty and
the claim that a constructed pattern field is always non-empty. -/
theorem c2_counterexample_empty_pattern_accepted :
    cliDatatypesMain ["prog", "", "x"] = Except.ok ⟨"", "x"⟩ ∧
    (Cli.mk "" "x").pattern = "" :=
  ⟨rfl, rfl⟩

/-- C2 amended: whenever a Cli is successfully constructed both fields
are present, equal to positional arguments 1 and 2 verbatim, and
construction succeeds exactly when both positions exist in the
argument list (at least three tokens); no emptiness check is made, so
empty strings are accepted and preserved. -/
theorem c2_amended_presence_only (args : List String) :
    ((∃ c, cliDatatypesMain args = Except.ok c) ↔ 3 ≤ args.length) ∧
    (∀ c, cliDatatypesMain args = Except.ok c →
      cliDatatypesPatternRead args = some c.pattern ∧
      cliDatatypesPathRead args = some c.path) := by
  rcases args with _ | ⟨a, _ | ⟨b, _ | ⟨c, rest⟩⟩⟩
  · exact ⟨by simp [cliDatatypesMain, cliDatatypesPatternRead],
      fun c h => by simp [cliDatatypesMain, cliDatatypesPatternRead] at h⟩
  · exact ⟨by simp [cliDatatypesMain, cliDatatypesPatternRead],
      fun c h => by simp [cliDatatypesMain, cliDatatypesPatternRead] at h⟩
  · exact ⟨by simp [cliDatatypesMain, cliDatatypesPatternRead, cliDatatypesPathRead],
      fun c h => by simp [cliDatatypesMain, cliDatatypesPatternRead, cliDatatypesPathRead] at h⟩
  · refine ⟨⟨fun _ => by simp, fun _ => ⟨⟨b, c⟩, rfl⟩⟩, fun c' h => ?_⟩
    have hc : Cli.mk b c = c' := by
      have h' : Except.ok (ε := ParseError) (Cli.mk b c) = Except.ok c' := h
      injection h'
    subst hc
    exact ⟨rfl, rfl⟩

/-- C2 amended witness: at a concrete three-token list the parse
succeeds and the on-success field reads hold. -/
theorem c2_amended_witness :
    ((∃ c, cliDatatypesMain ["prog", "foo", "bar"] = Except.ok c) ↔
      3 ≤ (["prog", "foo", "bar"] : List String).length) ∧
    (∀ c, cliDatatypesMain ["prog", "foo", "bar"] = Except.ok c →
      cliDatatypesPatternRead ["prog", "foo", "bar"] = some c.pattern ∧
      cliDatatypesPathRead ["prog", "foo", "bar"] = some c.path) :=
  c2_amended_presence_only ["prog", "foo", "bar"]

/-- C3 counterexample: the iterator variant in main.rs does NOT read
the same element twice; on the list prog a b it succeeds with pattern
a and path b, which are different, refuting the claim that on every
non-failing run the pattern value equals the path value. -/
theorem c3_counterexample :
    ¬ (∀ (args : List String) (pn p d : String),
        mainRsMain args = Except.ok (pn, p, d) → p = d) := by
  intro h
  have hx := h ["prog", "a", "b"] "prog" "a" "b" rfl
  exact absurd hx (by decide)

/-- C3 amended: each read of main.rs calls std env args afresh, so the
pattern read consumes position 1 and the path read position 2; on every
success the pattern is argument 1 and the path argument 2, distinct
positions of the list (the code comments describing a next-twice
aliasing bug do not match the executable code). -/
theorem c3_amended_distinct_positions (args : List String) (pn p d : String)
    (h : mainRsMain args = Except.ok (pn, p, d)) :
    mainRsProgramNameRead args = some pn ∧
    mainRsPatternRead args = some p ∧
    mainRsPathRead args = some d := by
  rcases args with _ | ⟨a, _ | ⟨b, _ | ⟨c, rest⟩⟩⟩ <;>
    simp [mainRsMain, mainRsProgramNameRead, mainRsPatternRead, mainRsPathRead] at h ⊢
  exact ⟨h.1, h.2.1, h.2.2⟩

/-- C3 amended witness. -/
theorem c3_amended_witness :
    mainRsProgramNameRead ["prog", "a", "b"] = some "prog" ∧
    mainRsPatternRead ["prog", "a", "b"] = some "a" ∧
    mainRsPathRead ["prog", "a", "b"] = some "b" :=
  c3_amended_distinct_positions ["prog", "a", "b"] "prog" "a" "b" rfl

/-- C4: an argument list holding only the invocation-path token fails
with the missing-pattern error in both variants, and that error is
distinct from the missing-path error. -/
theorem c4_zero_positionals_missing_pattern (a0 : String) :
    cliDatatypesMain [a0] = Except.error ParseError.missingPattern ∧
    mainRsMain [a0] = Except.error ParseError.missingPattern ∧
    ParseError.missingPattern ≠ ParseError.missingPath :=
  ⟨rfl, rfl, by decide⟩

/-- C4 witness at a concrete invocation path. -/
theorem c4_witness :
    cliDatatypesMain ["prog"] = Except.error ParseError.missingPattern ∧
    mainRsMain ["prog"] = Except.error ParseError.missingPattern ∧
    ParseError.missingPattern ≠ ParseError.missingPath :=
  c4_zero_positionals_missing_pattern "prog"

/-- C5: an argument list with exactly one positional argument fails
with the missing-path error in both variants, and the pattern value
read before the failure is exactly that one argument: whenever it
differs from the invocation path or from the empty string, the read
value differs from those too. -/
theorem c5_one_positional_missing_path (a0 p : String) :
    cliDatatypesMain [a0, p] = Except.error ParseError.missingPath ∧
    mainRsMain [a0, p] = Except.error ParseError.missingPath ∧
    mainRsPatternRead [a0, p] = some p ∧
    cliDatatypesPatternRead [a0, p] = some p ∧
    (p ≠ a0 → mainRsPatternRead [a0, p] ≠ some a0) ∧
    (p ≠ "" → mainRsPatternRead [a0, p] ≠ some "") := by
  refine ⟨rfl, rfl, rfl, rfl, fun hne h => hne ?_, fun hne h => hne ?_⟩
  · exact Option.some.inj h
  · exact Option.some.inj h

/-- C5 witness at a concrete list prog pat. -/
theorem c5_witness :
    cliDatatypesMain ["prog", "pat"] = Except.error ParseError.missingPath ∧
    mainRsMain ["prog", "pat"] = Except.error ParseError.missingPath ∧
    mainRsPatternRead ["prog", "pat"] = some "pat" :=
  let h := c5_one_positional_missing_path "prog" "pat"
  ⟨h.1, h.2.1, h.2.2.1⟩

/-- C6: the two failure conditions are distinguishable: every failure
of the manual-indexing variant is either the missing-pattern error
carrying the message naming the pattern or the missing-path error
carrying the message naming the path; the same holds for the iterator
variant with its two messages; the two error values and the two
messages of each variant are pairwise distinct, so no merged error is
used. -/
theorem c6_errors_distinguishable :
    (∀ (args : List String) (e : ParseError),
        cliDatatypesMain args = Except.error e →
          (e = ParseError.missingPattern ∧
            cliDatatypesExpectMsg e = some "no pattern given") ∨
          (e = ParseError.missingPath ∧
            cliDatatypesExpectMsg e = some "no path given")) ∧
    (∀ (args : List String) (e : ParseError),
        mainRsMain args = Except.error e → e ≠ ParseError.missingProgramName →
          (e = ParseError.missingPattern ∧
            mainRsExpectMsg e = some "No pattern given, please give some pattern brother.") ∨
          (e = ParseError.missingPath ∧
            mainRsExpectMsg e = some "No path given, please give some path brother, what to do?")) ∧
    ParseError.missingPattern ≠ ParseError.missingPath ∧
    ("no pattern given" : String) ≠ "no path given" ∧
    ("No pattern given, please give some pattern brother." : String) ≠
      "No path given, please give some path brother, what to do?" := by
  refine ⟨?_, ?_, by decide, by decide, by decide⟩
  · intro args e h
    rcases args with _ | ⟨a, _ | ⟨b, _ | ⟨c, rest⟩⟩⟩ <;>
      simp [cliDatatypesMain, cliDatatypesPatternRead, cliDatatypesPathRead] at h
    · exact Or.inl ⟨h.symm, by subst h; rfl⟩
    · exact Or.inl ⟨h.symm, by subst h; rfl⟩
    · exact Or.inr ⟨h.symm, by subst h; rfl⟩
  · intro args e h hpn
    rcases args with _ | ⟨a, _ | ⟨b, _ | ⟨c, rest⟩⟩⟩ <;>
      simp [mainRsMain, mainRsProgramNameRead, mainRsPatternRead, mainRsPathRead] at h
    · exact absurd h.symm hpn
    · exact Or.inl ⟨h.symm, by subst h; rfl⟩
    · exact Or.inr ⟨h.symm, by subst h; rfl⟩

/-- C6 witness: concrete failing lists for both variants, with the
hypotheses discharged at the missing-pattern instance. -/
theorem c6_witness :
    ((ParseError.missingPattern = ParseError.missingPattern ∧
        cliDatatypesExpectMsg ParseError.missingPattern = some "no pattern given") ∨
      (ParseError.missingPattern = ParseError.missingPath ∧
        cliDatatypesExpectMsg ParseError.missingPattern = some "no path given")) ∧
    ((ParseError.missingPath = ParseError.missingPattern ∧
        mainRsExpectMsg ParseError.missingPath = some "No pattern given, please give some pattern brother.") ∨
      (ParseError.missingPath = ParseError.missingPath ∧
        mainRsExpectMsg ParseError.missingPath = some "No path given, please give some path brother, what to do?")) :=
  ⟨c6_errors_distinguishable.1 ["prog"] ParseError.missingPattern rfl,
    c6_errors_distinguishable.2.1 ["prog", "pat"] ParseError.missingPath rfl (by decide)⟩

/-- C7: on an argument list with three or more positional arguments
(four or more tokens), everything after position 2 is ignored: both
variants return exactly the result of parsing the list truncated to
its first three tokens (invocation path plus two positionals). -/
theorem c7_extra_positionals_ignored (args : List String) (h : 4 ≤ args.length) :
    cliDatatypesMain args = cliDatatypesMain (args.take 3) ∧
    mainRsMain args = mainRsMain (args.take 3) := by
  rcases args with _ | ⟨a, _ | ⟨b, _ | ⟨c, rest⟩⟩⟩ <;> exact ⟨rfl, rfl⟩

/-- C7 witness at a concrete five-token list. -/
theorem c7_witness :
    cliDatatypesMain ["prog", "a", "b", "x", "y"] =
      cliDatatypesMain ((["prog", "a", "b", "x", "y"] : List String).take 3) ∧
    mainRsMain ["prog", "a", "b", "x", "y"] =
      mainRsMain ((["prog", "a", "b", "x", "y"] : List String).take 3) :=
  c7_extra_positionals_ignored ["prog", "a", "b", "x", "y"] (by decide)

/-- C8: parsing is deterministic: two runs of the parse on the same
literal argument list give equal results, in particular structurally
equal Cli values on success and the same error on failure. -/
theorem c8_parse_deterministic (args : List String) :
    (∀ r1 r2 : Except ParseError Cli,
        r1 = cliDatatypesMain args → r2 = cliDatatypesMain args → r1 = r2) ∧
    (∀ c1 c2, cliDatatypesMain args = Except.ok c1 →
        cliDatatypesMain args = Except.ok c2 →
        c1.pattern = c2.pattern ∧ c1.path = c2.path) ∧
    (∀ e1 e2, cliDatatypesMain args = Except.error e1 →
        cliDatatypesMain args = Except.error e2 → e1 = e2) := by
  refine ⟨fun r1 r2 h1 h2 => h1.trans h2.symm, ?_, ?_⟩
  · intro c1 c2 h1 h2
    have hc : c1 = c2 := by
      have h12 := h1.symm.trans h2
      injection h12
    exact ⟨by rw [hc], by rw [hc]⟩
  · intro e1 e2 h1 h2
    have h12 := h1.symm.trans h2
    injection h12

/-- C8 witness: two runs at the same concrete list give equal fields. -/
theorem c8_witness :
    (Cli.mk "foo" "bar").pattern = (Cli.mk "foo" "bar").pattern ∧
    (Cli.mk "foo" "bar").path = (Cli.mk "foo" "bar").path :=
  (c8_parse_deterministic ["prog", "foo", "bar"]).2.1 ⟨"foo", "bar"⟩ ⟨"foo", "bar"⟩ rfl rfl

/-- C9 counterexample: on the completely empty argument list the two
variants fail with different conditions: the iterator variant fails on
the program-name read and the manual-indexing variant with the
missing-pattern error, so the variants are not extensionally
equivalent over all argument lists. -/
theorem c9_counterexample_empty_list : ¬ variantsAgreeOn [] := by
  intro h
  rcases h with ⟨pn, p, d, c, h1, _⟩ | ⟨e, h1, h2⟩
  · have h1' : Except.error (α := String × String × String) ParseError.missingProgramName =
        Except.ok (pn, p, d) := h1
    cases h1'
  · have h1' : ParseError.missingProgramName = e := by
      have := (rfl : mainRsMain [] = Except.error ParseError.missingProgramName).symm.trans h1
      injection this
    have h2' : ParseError.missingPattern = e := by
      have := (rfl : cliDatatypesMain [] = Except.error ParseError.missingPattern).symm.trans h2
      injection this
    exact absurd (h1'.trans h2'.symm) (by decide)

/-- C9 amended: on every argument list holding at least the
invocation-path token, the two variants agree: both succeed with the
same pattern and path values or both fail with the same error. -/
theorem c9_amended_agree_on_nonempty (a0 : String) (rest : List String) :
    variantsAgreeOn (a0 :: rest) := by
  rcases rest with _ | ⟨p, _ | ⟨d, rest⟩⟩
  · exact Or.inr ⟨ParseError.missingPattern, rfl, rfl⟩
  · exact Or.inr ⟨ParseError.missingPath, rfl, rfl⟩
  · exact Or.inl ⟨a0, p, d, ⟨p, d⟩, rfl, rfl, rfl, rfl⟩

/-- C10: the completely empty argument list makes the iterator variant
fail on the program-name read, an error distinct from both the
missing-pattern and missing-path errors, even though the pattern and
path reads would also have found nothing: the failure is raised before
either is consulted. -/
theorem c10_empty_list_fails_on_program_name :
    mainRsMain [] = Except.error ParseError.missingProgramName ∧
    mainRsPatternRead [] = none ∧
    mainRsPathRead [] = none ∧
    ParseError.missingProgramName ≠ ParseError.missingPattern ∧
    ParseError.missingProgramName ≠ ParseError.missingPath :=
  ⟨rfl, rfl, rfl, by decide, by decide⟩

end Grss
